import Mathlib

/-!
Shallow embedding of `src/examples/monitoring_demo.py` (the Click-Lite
monitoring demo driver): the data model, the API client wrappers, one
iteration of each load phase, the dashboard tick, the run-state flag and the
startup precheck, together with theorems settling the specification's claims.

Conventions of the embedding:

* Python exceptions are modelled by `Except Exn`.  A bare `except:` clause
  catches every constructor of `Exn`; an `except Exception` clause catches
  everything but `Exn.keyboardInterrupt` (which models `KeyboardInterrupt`,
  a `BaseException` that is not an `Exception`);
  `except requests.exceptions.RequestException` catches only
  `Exn.requestError`.
* The network and runtime environment supplies the outcome of each blocking
  step (every HTTP call and every `time.sleep`); the embedded code decides
  only what it does with those outcomes.
* Randomness is modelled by explicit draw values handed to each iteration:
  `random.randint(lo, hi)` applied to a raw draw `n` becomes
  `lo + n % (hi - lo + 1)`, `random.choice(xs)` becomes indexing by
  `n % xs.length`, and the uniform test `random.random() < 0.3` becomes
  `draw % 100 < 30` over a hundred equiprobable buckets.
* Wall-clock time is discretised at the granularity of one loop iteration:
  a `while time.time() - start_time < duration and self.running` loop is
  modelled by a fuel counter bounding the number of iterations that fit in
  the duration, with the `running` flag read as a function of the index of
  each loop-condition check.
-/

namespace ClickLiteDemo

/-- Log levels used by the demo generator. -/
inductive Level
  | debug
  | info
  | warning
  | error
deriving DecidableEq, Repr

/-- Python exceptions relevant to the script.  `keyboardInterrupt` models
`KeyboardInterrupt`, a `BaseException` that is not an `Exception`; the
other constructors are `Exception` subclasses. -/
inductive Exn
  | requestError
  | jsonError
  | keyboardInterrupt
  | otherError
deriving DecidableEq, Repr

/-- Whether an `except requests.exceptions.RequestException` clause catches
the exception. -/
def Exn.isRequestException : Exn → Bool
  | .requestError => true
  | _ => false

/-- Whether an `except Exception` clause catches the exception: everything
but `KeyboardInterrupt`. -/
def Exn.isException : Exn → Bool
  | .keyboardInterrupt => false
  | _ => true

/-- A JSON value, as returned by `response.json()`.  Keys of a parsed JSON
object are unique, so an association list with first-match lookup is an
adequate model of the Python dict. -/
inductive JsonVal
  | null
  | bool (b : Bool)
  | num (n : Int)
  | str (s : String)
  | arr (xs : List JsonVal)
  | obj (fields : List (String × JsonVal))

/-- Model of `d.get(key, default)` on a parsed JSON value; calling `.get`
on a non-dict raises `AttributeError` (an `Exception`). -/
def jsonGet : JsonVal → String → JsonVal → Except Exn JsonVal
  | .obj fields, key, dflt => .ok ((fields.lookup key).getD dflt)
  | _, _, _ => .error .otherError

/-- An HTTP response: the status code together with the result of calling
`.json()` on the body. -/
structure Response where
  status_code : Nat
  jsonBody : Except Exn JsonVal

/-- check_health (script lines 28-31): `requests.get` on
`/monitoring/health`, then `response.json()`.  Nothing is caught here, so
any failure of the round-trip or of the parse propagates to the caller. -/
def check_health (resp : Except Exn Response) : Except Exn JsonVal :=
  match resp with
  | .error e => .error e
  | .ok r => r.jsonBody

/-- get_metrics (lines 33-36): `response.json().get("metrics", [])`.
Failures of the round-trip or parse propagate; a well-formed object that
merely lacks the field falls back to the empty list. -/
def get_metrics (resp : Except Exn Response) : Except Exn JsonVal :=
  match resp with
  | .error e => .error e
  | .ok r =>
    match r.jsonBody with
    | .error e => .error e
    | .ok j => jsonGet j "metrics" (.arr [])

/-- get_alerts (lines 38-41): `response.json().get("alerts", [])`. -/
def get_alerts (resp : Except Exn Response) : Except Exn JsonVal :=
  match resp with
  | .error e => .error e
  | .ok r =>
    match r.jsonBody with
    | .error e => .error e
    | .ok j => jsonGet j "alerts" (.arr [])

/-- format_uptime (lines 249-254): decompose a duration in seconds into
days, hours and minutes, discarding the remainder under a minute.
Durations are modelled as whole seconds. -/
def format_uptime (seconds : Nat) : String :=
  let days := seconds / 86400
  let hours := (seconds % 86400) / 3600
  let minutes := (seconds % 3600) / 60
  toString days ++ "d " ++ toString hours ++ "h " ++ toString minutes ++ "m"

/-- Model of `random.randint(lo, hi)` (both endpoints inclusive) applied to
a raw nonnegative draw. -/
def randint (lo hi draw : Nat) : Nat := lo + draw % (hi - lo + 1)

/-- Model of `random.choice(xs)` applied to a raw draw. -/
def randChoice (xs : List String) (dflt : String) (draw : Nat) : String :=
  xs.getD (draw % xs.length) dflt

/-- Model of `random.choices(["debug", "info", "warning", "error"],
weights=[10, 70, 15, 5])[0]` (lines 54-57): a draw over a hundred
equiprobable buckets resolved against the cumulative weights
10, 80, 95, 100. -/
def chooseLevelNormal (draw : Nat) : Level :=
  let r := draw % 100
  if r < 10 then .debug
  else if r < 80 then .info
  else if r < 95 then .warning
  else .error

/-- Model of `random.choice(["info", "warning", "error"])` during the
high-load phase (line 98). -/
def chooseLevelHigh (draw : Nat) : Level :=
  match draw % 3 with
  | 0 => .info
  | 1 => .warning
  | _ => .error

/-- Values appearing in a record's `attributes` mapping. -/
inductive AttrVal
  | nat (n : Nat)
  | str (s : String)
  | bool (b : Bool)
deriving DecidableEq, Repr

/-- A synthetic log record, as built by the load phases (the `timestamp`
string is supplied by the environment as the current UTC time). -/
structure LogRecord where
  level : Level
  message : String
  service : String
  timestamp : String
  attributes : List (String × AttrVal)
deriving DecidableEq, Repr

/-- Message fragments chosen at random during normal load (line 61). -/
def normalMessages : List String :=
  ["User login", "API request", "Data processed", "Cache hit", "Task completed"]

/-- Services chosen at random during normal load (line 62). -/
def normalServices : List String := ["web", "api", "worker", "cache"]

/-- Per-record random draws consumed while building one normal-load
record. -/
structure RecordDraws where
  levelDraw : Nat
  msgDraw : Nat
  svcDraw : Nat
  uidDraw : Nat
  durDraw : Nat

/-- One normal-load record (lines 53-69): weighted level, random message
and service, and attributes `user_id`, `duration_ms` and a `status` that is
`"failed"` exactly for error-level records. -/
def mkNormalRecord (now : String) (d : RecordDraws) : LogRecord :=
  let lvl := chooseLevelNormal d.levelDraw
  { level := lvl
    message := "Normal operation log - " ++ randChoice normalMessages "" d.msgDraw
    service := randChoice normalServices "" d.svcDraw
    timestamp := now
    attributes :=
      [("user_id", .nat (randint 1000 9999 d.uidDraw)),
       ("duration_ms", .nat (randint 10 500 d.durDraw)),
       ("status", .str (if lvl ≠ Level.error then "success" else "failed"))] }

/-- One high-load record (lines 96-106): uniform level among info, warning
and error, fixed message and service, and attributes recording the load
test and the batch size. -/
def mkHighRecord (now : String) (batchSize levelDraw : Nat) : LogRecord :=
  { level := chooseLevelHigh levelDraw
    message := "High load test log"
    service := "load-test"
    timestamp := now
    attributes := [("load_test", .bool true), ("batch_size", .nat batchSize)] }

/-- Random draws consumed by one normal-load iteration. -/
structure NormalDraws where
  batchDraw : Nat
  recDraws : Nat → RecordDraws
  queryDraw : Nat
  queryChoiceDraw : Nat

/-- The batch size of one normal-load iteration:
`random.randint(10, 50)` (line 50). -/
def normalBatchSize (d : NormalDraws) : Nat := randint 10 50 d.batchDraw

/-- The batch built by one normal-load iteration (lines 50-69). -/
def normalBatch (now : String) (d : NormalDraws) : List LogRecord :=
  (List.range (normalBatchSize d)).map (fun j => mkNormalRecord now (d.recDraws j))

/-- Random draws consumed by one high-load iteration. -/
structure HighDraws where
  batchDraw : Nat
  levelDraws : Nat → Nat

/-- The batch size of one high-load iteration:
`random.randint(500, 1000)` (line 93). -/
def highBatchSize (d : HighDraws) : Nat := randint 500 1000 d.batchDraw

/-- The batch built by one high-load iteration (lines 93-106). -/
def highBatch (now : String) (d : HighDraws) : List LogRecord :=
  (List.range (highBatchSize d)).map
    (fun j => mkHighRecord now (highBatchSize d) (d.levelDraws j))

/-- One remote call, identified as far as the claims observe it. -/
inductive ApiCall
  | getLive
  | getHealth
  | getMetrics
  | getAlerts
  | postIngest (records : List LogRecord)
  | postBulk (records : List LogRecord)
  | postQuery (sql : String)
deriving DecidableEq, Repr

/-- An observable step of a loop iteration: a remote call or a sleep.  The
delay is kept in milliseconds so that the 0.1 s and 0.5 s delays stay
integral. -/
inductive Event
  | call (c : ApiCall)
  | sleepMs (ms : Nat)
deriving DecidableEq, Repr

/-- Whether an event is a query submission (a `postQuery` call). -/
def isQueryCall (ev : Event) : Bool :=
  match ev with
  | .call (.postQuery _) => true
  | _ => false

/-- Model of `try: requests.post(...) except: pass` (lines 71-78, 108-115,
138-145, 159-166): the response is never inspected (no `raise_for_status`,
so a non-success status is simply discarded together with the body), and
the bare `except:` clause catches every exception. -/
def firePost : Except Exn Response → Except Exn Unit
  | .ok _ => .ok ()
  | .error _ => .ok ()

/-- The four candidate queries of `execute_query` (lines 151-156). -/
def queryList : List String :=
  ["SELECT COUNT(*) FROM logs WHERE level = \x27error\x27",
   "SELECT service, COUNT(*) as count FROM logs GROUP BY service",
   "SELECT * FROM logs ORDER BY timestamp DESC LIMIT 100",
   "SELECT level, COUNT(*) FROM logs WHERE timestamp > datetime(\x27now\x27, \x27-5 minutes\x27) GROUP BY level"]

/-- execute_query (lines 149-166): choose one of four queries, post it to
`/query/execute`, and swallow any exception raised by the post. -/
def execute_query (choiceDraw : Nat) (outcome : Except Exn Response) :
    Except Exn (List Event) :=
  let sql := randChoice queryList "" choiceDraw
  match firePost outcome with
  | .error e => .error e
  | .ok () => .ok [Event.call (.postQuery sql)]

/-- Outcomes the environment assigns to the blocking steps of one
normal-load iteration.  A post outcome is the response received, or the
exception raised during the call; the sleep outcome is `.ok ()` unless an
exception (for example an interrupt) is delivered during `time.sleep`. -/
structure WriteEnv where
  ingestOutcome : Except Exn Response
  queryOutcome : Except Exn Response
  sleepOutcome : Except Exn Unit

/-- One iteration of the `generate_normal_load` while-loop body (lines
48-84): build the batch, post it to `/ingest/logs` under a bare
`except: pass`, with probability 30% also run `execute_query`, then
`time.sleep(1)` — the sleep is not inside any `try`, so an exception
delivered there propagates. -/
def normalLoadIter (now : String) (d : NormalDraws) (env : WriteEnv) :
    Except Exn (List Event) :=
  let logs := normalBatch now d
  match firePost env.ingestOutcome with
  | .error e => .error e
  | .ok () =>
    let queryEvents : Except Exn (List Event) :=
      if d.queryDraw % 100 < 30 then execute_query d.queryChoiceDraw env.queryOutcome
      else .ok []
    match queryEvents with
    | .error e => .error e
    | .ok qs =>
      match env.sleepOutcome with
      | .error e => .error e
      | .ok () => .ok (Event.call (.postIngest logs) :: qs ++ [Event.sleepMs 1000])

/-- The events one normal-load iteration produces when nothing escapes:
the ingest post, the optional query post, then the one-second sleep. -/
def normalIterEvents (now : String) (d : NormalDraws) : List Event :=
  Event.call (.postIngest (normalBatch now d)) ::
    (if d.queryDraw % 100 < 30
     then [Event.call (.postQuery (randChoice queryList "" d.queryChoiceDraw))]
     else []) ++ [Event.sleepMs 1000]

/-- Outcomes for the blocking steps of one high-load iteration. -/
structure HighEnv where
  bulkOutcome : Except Exn Response
  sleepOutcome : Except Exn Unit

/-- One iteration of the `generate_high_load` loop body (lines 91-117):
build the batch, post it to `/ingest/bulk` under a bare `except: pass`,
then `time.sleep(0.1)` (unguarded). -/
def highLoadIter (now : String) (d : HighDraws) (env : HighEnv) :
    Except Exn (List Event) :=
  let logs := highBatch now d
  match firePost env.bulkOutcome with
  | .error e => .error e
  | .ok () =>
    match env.sleepOutcome with
    | .error e => .error e
    | .ok () => .ok [Event.call (.postBulk logs), Event.sleepMs 100]

/-- The events one high-load iteration produces when nothing escapes. -/
def highIterEvents (now : String) (d : HighDraws) : List Event :=
  [Event.call (.postBulk (highBatch now d)), Event.sleepMs 100]

/-- The fixed aggregation query of `generate_slow_queries` (lines
125-136), flattened to one line. -/
def slowQuerySql : String :=
  "SELECT service, level, DATE_TRUNC(\x27minute\x27, timestamp) as minute, " ++
  "COUNT(*) as count, AVG(CAST(json_extract(attributes, \x27$.duration_ms\x27) " ++
  "as FLOAT)) as avg_duration FROM logs WHERE timestamp > " ++
  "datetime(\x27now\x27, \x27-1 hour\x27) GROUP BY service, level, minute " ++
  "ORDER BY minute DESC, count DESC"

/-- Outcomes for the blocking steps of one slow-query iteration. -/
structure SlowEnv where
  queryOutcome : Except Exn Response
  sleepOutcome : Except Exn Unit

/-- One iteration of the `generate_slow_queries` for-loop body (lines
123-147): post the fixed aggregation query under a bare `except: pass`,
then `time.sleep(0.5)` (unguarded). -/
def slowQueryIter (env : SlowEnv) : Except Exn (List Event) :=
  match firePost env.queryOutcome with
  | .error e => .error e
  | .ok () =>
    match env.sleepOutcome with
    | .error e => .error e
    | .ok () => .ok [Event.call (.postQuery slowQuerySql), Event.sleepMs 500]

/-- The events one slow-query iteration produces when nothing escapes. -/
def slowIterEvents : List Event :=
  [Event.call (.postQuery slowQuerySql), Event.sleepMs 500]

/-- Iterations performed by a `while elapsed < duration and self.running`
loop, with time discretised so that one iteration advances the elapsed
time by one step: `fuel` is the number of steps remaining before the
duration elapses, `k` the index of the upcoming loop-condition check, and
`flag k` the value the `running` flag reads at that check.  The returned
value, started from `k = 0`, is the number of iterations performed. -/
def whileLoopIters : Nat → Nat → (Nat → Bool) → Nat
  | 0, k, _ => k
  | fuel + 1, k, flag => if flag k then whileLoopIters fuel (k + 1) flag else k

/-- Number of iterations `generate_normal_load(duration)` performs when
the `running` flag reads `flag k` at its k-th loop check (line 48; one
iteration per second of duration, matching the one-second sleep). -/
def normalLoadIterCount (duration : Nat) (flag : Nat → Bool) : Nat :=
  whileLoopIters duration 0 flag

/-- Number of iterations `generate_high_load(duration)` performs (line 91;
ten iterations per second of duration, matching the 0.1 s sleep). -/
def highLoadIterCount (duration : Nat) (flag : Nat → Bool) : Nat :=
  whileLoopIters (10 * duration) 0 flag

/-- Number of iterations `generate_slow_queries(count)` performs: the loop
(line 123) is `for i in range(count)` — its condition is only `i < count`
and never consults `self.running`, so the flag argument is unused. -/
def slowQueriesIterCount (count : Nat) (_flag : Nat → Bool) : Nat := count

/-- What one dashboard tick prints: a snapshot (status, version and uptime
value from the health object, plus the number of alerts shown, capped at
five by `alerts[:5]`), or the one-line
`Error updating dashboard: ...` message.  Per-metric string formatting is
not reproduced; the claims observe rendering only this far. -/
inductive TickOutput
  | snapshot (status version uptime : JsonVal) (alertsShown : Nat)
  | errorLine (e : Exn)

/-- The rendering part of one dashboard iteration (lines 186-242): read
`status`, `version` and `uptime_seconds` from the health object with
defaults (raising on a non-dict), and show at most five alerts (iterating
`alerts[:5]` raises on a non-list). -/
def renderTick (health _metrics alerts : JsonVal) : Except Exn TickOutput :=
  match jsonGet health "status" (.str "unknown") with
  | .error e => .error e
  | .ok status =>
    match jsonGet health "version" (.str "unknown") with
    | .error e => .error e
    | .ok version =>
      match jsonGet health "uptime_seconds" (.num 0) with
      | .error e => .error e
      | .ok uptime =>
        match alerts with
        | .arr xs => .ok (.snapshot status version uptime (min xs.length 5))
        | _ => .error .otherError

/-- The three GET responses one dashboard tick sees. -/
structure FetchEnv where
  healthResp : Except Exn Response
  metricsResp : Except Exn Response
  alertsResp : Except Exn Response

/-- The body of one `display_metrics_dashboard` iteration (lines 171-243):
everything from the screen-clear to the footer runs inside `try`; the
three fetches run first and any failure short-circuits the rest. -/
def dashboardTickBody (env : FetchEnv) : Except Exn TickOutput :=
  match check_health env.healthResp with
  | .error e => .error e
  | .ok health =>
    match get_metrics env.metricsResp with
    | .error e => .error e
    | .ok metrics =>
      match get_alerts env.alertsResp with
      | .error e => .error e
      | .ok alerts => renderTick health metrics alerts

/-- The try-except part of one dashboard iteration: the body's outcome
after the `except Exception as e` clause, which prints the one-line
`Error updating dashboard: ...` message in place of the snapshot; a
`KeyboardInterrupt` does not match the clause and escapes. -/
def caughtTickOutput (env : FetchEnv) : Except Exn TickOutput :=
  match dashboardTickBody env with
  | .ok o => .ok o
  | .error e => if e.isException then .ok (.errorLine e) else .error e

/-- One full dashboard iteration (lines 170-247): the guarded body
followed by the `time.sleep(2)` that sits outside the `try`. -/
def dashboardTick (env : FetchEnv) (sleepOutcome : Except Exn Unit) :
    Except Exn (TickOutput × List Event) :=
  match caughtTickOutput env with
  | .error e => .error e
  | .ok o =>
    match sleepOutcome with
    | .error e => .error e
    | .ok () => .ok (o, [Event.sleepMs 2000])

/-- Whether an `Except` value is a success. -/
def okE {α : Type} (x : Except Exn α) : Bool :=
  match x with
  | .ok _ => true
  | .error _ => false

/-- The shared run state. -/
structure DemoState where
  running : Bool
deriving DecidableEq, Repr

/-- MonitoringDemo.__init__ (lines 24-26): `self.running = True`. -/
def initState : DemoState := { running := true }

/-- run_demo (lines 256-288) as a transformer of the run state.  The four
phases and the dashboard only read the flag; `phaseOutcome` is how the
phase sequence ended (`.ok ()` on normal completion, `.error e` when an
exception escaped a phase).  The `except KeyboardInterrupt` clause catches
only the interrupt; the single write `self.running = False` sits in the
`finally` block and therefore runs on every path.  The middle component of
the result records every value written to `running` during the call, in
order. -/
def run_demo (phaseOutcome : Except Exn Unit) (s : DemoState) :
    DemoState × List Bool × Except Exn Unit :=
  let handled : Except Exn Unit :=
    match phaseOutcome with
    | .ok () => .ok ()
    | .error .keyboardInterrupt => .ok ()
    | .error e => .error e
  ({ s with running := false }, [false], handled)

/-- Number of transitions from `true` to an adjacent `false` in a sequence
of flag values. -/
def trueToFalseCount : List Bool → Nat
  | true :: false :: rest => 1 + trueToFalseCount (false :: rest)
  | _ :: rest => trueToFalseCount rest
  | [] => 0

/-- How `main` ends, as far as the precheck decides it. -/
inductive MainOutcome
  | exitDiagnostic
  | proceedToDemo
  | uncaught (e : Exn)
deriving DecidableEq, Repr

/-- main (lines 291-307): issue the liveness GET on
`/monitoring/health/live` first; a caught `RequestException` or a status
code other than 200 prints a diagnostic and returns before any further
call; otherwise the demo runs (`demoCalls` stands for whatever traffic
`run_demo` then produces).  An exception not matching the `except` clause
would escape `main`. -/
def main (liveResult : Except Exn Response) (demoCalls : List ApiCall) :
    List ApiCall × MainOutcome :=
  match liveResult with
  | .ok r =>
    if r.status_code ≠ 200 then ([.getLive], .exitDiagnostic)
    else (.getLive :: demoCalls, .proceedToDemo)
  | .error e =>
    if e.isRequestException then ([.getLive], .exitDiagnostic)
    else ([.getLive], .uncaught e)

/-! Concrete sample inputs, used to exhibit the theorems on closed data. -/

/-- A plain successful response with an empty JSON object body. -/
def resp200 : Response := ⟨200, .ok (.obj [])⟩

/-- All-zero per-record draws. -/
def rd0 : RecordDraws := ⟨0, 0, 0, 0, 0⟩

/-- All-zero normal-load draws (batch size `randint 10 50 0 = 10`). -/
def nd0 : NormalDraws := ⟨0, fun _ => rd0, 0, 0⟩

/-- All-zero high-load draws (batch size `randint 500 1000 0 = 500`). -/
def hd0 : HighDraws := ⟨0, fun _ => 0⟩

/-- A normal-load environment whose ingest post raises a network error. -/
def wEnvFail : WriteEnv := ⟨.error .requestError, .ok resp200, .ok ()⟩

/-- A normal-load environment whose posts both receive an interrupt. -/
def wEnvInterrupt : WriteEnv :=
  ⟨.error .keyboardInterrupt, .error .keyboardInterrupt, .ok ()⟩

/-- A high-load environment whose bulk post raises a network error. -/
def hEnvFail : HighEnv := ⟨.error .requestError, .ok ()⟩

/-- A slow-query environment whose post raises a network error. -/
def sEnvFail : SlowEnv := ⟨.error .requestError, .ok ()⟩

/-- A slow-query environment whose post receives an interrupt. -/
def sEnvInterrupt : SlowEnv := ⟨.error .keyboardInterrupt, .ok ()⟩

/-- A dashboard environment whose health fetch raises a network error. -/
def fEnvFail : FetchEnv := ⟨.error .requestError, .ok resp200, .ok resp200⟩

/-! Helper lemmas. -/

lemma firePost_ok (o : Except Exn Response) : firePost o = .ok () := by
  cases o <;> rfl

lemma execute_query_eq (c : Nat) (o : Except Exn Response) :
    execute_query c o = .ok [Event.call (.postQuery (randChoice queryList "" c))] := by
  cases o <;> rfl

lemma normalLoadIter_eq (now : String) (d : NormalDraws)
    (io qo : Except Exn Response) :
    normalLoadIter now d ⟨io, qo, .ok ()⟩ = .ok (normalIterEvents now d) := by
  unfold normalLoadIter normalIterEvents
  rw [firePost_ok]
  by_cases h : d.queryDraw % 100 < 30
  · rw [if_pos h, if_pos h, execute_query_eq]
  · rw [if_neg h, if_neg h]

lemma highLoadIter_eq (now : String) (d : HighDraws) (bo : Except Exn Response) :
    highLoadIter now d ⟨bo, .ok ()⟩ = .ok (highIterEvents now d) := by
  cases bo <;> rfl

lemma slowQueryIter_eq (qo : Except Exn Response) :
    slowQueryIter ⟨qo, .ok ()⟩ = .ok slowIterEvents := by
  cases qo <;> rfl

lemma normalIterEvents_getLast (now : String) (d : NormalDraws) :
    (normalIterEvents now d).getLast? = some (Event.sleepMs 1000) := by
  unfold normalIterEvents
  by_cases h : d.queryDraw % 100 < 30
  · rw [if_pos h]; rfl
  · rw [if_neg h]; rfl

lemma isException_of_ne_interrupt (e : Exn) (h : e ≠ Exn.keyboardInterrupt) :
    e.isException = true := by
  cases e <;> simp_all [Exn.isException]

lemma whileLoopIters_le_of_flag_false (fuel : Nat) :
    ∀ (k i : Nat) (flag : Nat → Bool), k ≤ i → flag i = false →
      whileLoopIters fuel k flag ≤ i := by
  induction fuel with
  | zero => intro k i flag hk _; simpa [whileLoopIters] using hk
  | succ n ih =>
    intro k i flag hk hi
    unfold whileLoopIters
    by_cases hf : flag k
    · rw [if_pos hf]
      refine ih (k + 1) i flag ?_ hi
      rcases Nat.lt_or_ge k i with h | h
      · exact h
      · exfalso
        have hki : k = i := Nat.le_antisymm hk h
        rw [hki, hi] at hf
        exact Bool.noConfusion hf
    · rw [if_neg hf]; exact hk

lemma isQueryCall_postIngest (l : List LogRecord) :
    isQueryCall (.call (.postIngest l)) = false := rfl

lemma isQueryCall_postQuery (s : String) :
    isQueryCall (.call (.postQuery s)) = true := rfl

lemma isQueryCall_sleepMs (n : Nat) : isQueryCall (.sleepMs n) = false := rfl

lemma normalLoadIter_ok (now : String) (d : NormalDraws) (env : WriteEnv)
    (hs : env.sleepOutcome = .ok ()) :
    normalLoadIter now d env = .ok (normalIterEvents now d) := by
  have hEnv : env = ⟨env.ingestOutcome, env.queryOutcome, .ok ()⟩ := by rw [← hs]
  rw [hEnv]
  exact normalLoadIter_eq now d _ _

lemma highLoadIter_ok (now : String) (d : HighDraws) (env : HighEnv)
    (hs : env.sleepOutcome = .ok ()) :
    highLoadIter now d env = .ok (highIterEvents now d) := by
  have hEnv : env = ⟨env.bulkOutcome, .ok ()⟩ := by rw [← hs]
  rw [hEnv]
  exact highLoadIter_eq now d _

lemma slowQueryIter_ok (env : SlowEnv) (hs : env.sleepOutcome = .ok ()) :
    slowQueryIter env = .ok slowIterEvents := by
  have hEnv : env = ⟨env.queryOutcome, .ok ()⟩ := by rw [← hs]
  rw [hEnv]
  exact slowQueryIter_eq _

/-! Claim theorems. -/

/-- C1, counterexample.  The claim says every load phase's loop condition
reads the running flag and performs at most one further iteration once the
flag is false; but `generate_slow_queries(10)` is a `for i in range(10)`
loop, so with the flag false throughout it still performs all ten
iterations. -/
theorem slow_queries_flag_counterexample :
    slowQueriesIterCount 10 (fun _ => false) = 10 ∧
    ¬ slowQueriesIterCount 10 (fun _ => false) ≤ 1 :=
  ⟨rfl, by decide⟩

/-- C1, amended.  The Normal Load and High Load loop conditions read the
running flag, and each of those loops exits at its first check that reads
the flag false (hence at most the one in-flight iteration after the flag
is cleared); the Slow Queries loop is a fixed-count for loop whose
condition does not read the flag, so it performs all `count` iterations
regardless of the flag. -/
theorem loop_flag_response :
    (∀ duration flag i, flag i = false → normalLoadIterCount duration flag ≤ i) ∧
    (∀ duration flag i, flag i = false → highLoadIterCount duration flag ≤ i) ∧
    (∀ count flag, slowQueriesIterCount count flag = count) := by
  refine ⟨?_, ?_, ?_⟩
  · intro duration flag i h
    exact whileLoopIters_le_of_flag_false duration 0 i flag (Nat.zero_le i) h
  · intro duration flag i h
    exact whileLoopIters_le_of_flag_false (10 * duration) 0 i flag (Nat.zero_le i) h
  · intro count flag; rfl

/-- Witness for C1 on closed data: with a flag that is false from the
third check on, a 5-second normal-load run performs at most two
iterations. -/
theorem loop_flag_response_witness :
    (fun k => decide (k < 2)) 2 = false ∧
    normalLoadIterCount 5 (fun k => decide (k < 2)) ≤ 2 :=
  ⟨by decide, loop_flag_response.1 5 (fun k => decide (k < 2)) 2 (by decide)⟩

/-- C2.  `format_uptime` decomposes a duration of `s` seconds into
`s / 86400` days, `(s % 86400) / 3600` hours and `(s % 3600) / 60`
minutes, discarding the remainder under a minute, and is exact on the four
boundary inputs. -/
theorem format_uptime_correct :
    (∀ s : Nat, format_uptime s =
      toString (s / 86400) ++ "d " ++ toString ((s % 86400) / 3600) ++ "h " ++
        toString ((s % 3600) / 60) ++ "m") ∧
    format_uptime 0 = "0d 0h 0m" ∧
    format_uptime 86400 = "1d 0h 0m" ∧
    format_uptime 3661 = "0d 1h 1m" ∧
    format_uptime 90000 = "1d 1h 0m" :=
  ⟨fun _ => rfl, rfl, rfl, rfl, rfl⟩

/-- C8.  The running flag starts true (`__init__`), the only write to it —
the one in `run_demo`'s `finally` block — writes false on every path
(normal completion, interrupt, or any other escaping exception), and the
flag therefore makes at most one true-to-false transition over a run. -/
theorem running_flag_monotone :
    initState.running = true ∧
    (∀ out s, (run_demo out s).1.running = false ∧ (run_demo out s).2.1 = [false]) ∧
    (∀ out s, trueToFalseCount (s.running :: (run_demo out s).2.1) ≤ 1) := by
  refine ⟨rfl, fun out s => ⟨rfl, rfl⟩, ?_⟩
  intro out s
  cases h : s.running <;> simp [run_demo, trueToFalseCount]

/-- C3.  A failed write submission is invisible to the calling loop: when
the post raises (any exception) or returns any response (success or not —
the status is never inspected), the iteration neither propagates an error
nor skips its inter-iteration sleep, for all three write sites (normal
load's ingest post, high load's bulk post, and the slow-query post). -/
theorem write_failures_swallowed :
    (∀ now d (env : WriteEnv) e, env.ingestOutcome = .error e →
      env.sleepOutcome = .ok () →
      ∃ evs, normalLoadIter now d env = .ok evs ∧
        evs.getLast? = some (Event.sleepMs 1000)) ∧
    (∀ now d (env : WriteEnv) r, env.ingestOutcome = .ok r →
      env.sleepOutcome = .ok () →
      ∃ evs, normalLoadIter now d env = .ok evs ∧
        evs.getLast? = some (Event.sleepMs 1000)) ∧
    (∀ now d (env : HighEnv) e, env.bulkOutcome = .error e →
      env.sleepOutcome = .ok () →
      ∃ evs, highLoadIter now d env = .ok evs ∧
        evs.getLast? = some (Event.sleepMs 100)) ∧
    (∀ (env : SlowEnv) e, env.queryOutcome = .error e →
      env.sleepOutcome = .ok () →
      ∃ evs, slowQueryIter env = .ok evs ∧
        evs.getLast? = some (Event.sleepMs 500)) := by
  refine ⟨?_, ?_, ?_, ?_⟩
  · intro now d env e _ hs
    exact ⟨_, normalLoadIter_ok now d env hs, normalIterEvents_getLast now d⟩
  · intro now d env r _ hs
    exact ⟨_, normalLoadIter_ok now d env hs, normalIterEvents_getLast now d⟩
  · intro now d env e _ hs
    exact ⟨_, highLoadIter_ok now d env hs, rfl⟩
  · intro env e _ hs
    exact ⟨_, slowQueryIter_ok env hs, rfl⟩

/-- Witness for C3 on closed data: an ingest post that raises a network
error still yields a completed iteration ending in the one-second sleep. -/
theorem write_failures_swallowed_witness :
    wEnvFail.ingestOutcome = .error .requestError ∧
    wEnvFail.sleepOutcome = .ok () ∧
    ∃ evs, normalLoadIter "t" nd0 wEnvFail = .ok evs ∧
      evs.getLast? = some (Event.sleepMs 1000) :=
  ⟨rfl, rfl, write_failures_swallowed.1 "t" nd0 wEnvFail .requestError rfl rfl⟩

/-- C10.  The bare `except:` clauses around the write submissions catch
every exception type without discrimination — including an interrupt
delivered during the post — so the phase iteration never propagates an
exception raised inside `postLogs`/`postQuery` and instead continues to
its sleep; this holds for every constructor of `Exn`. -/
theorem bare_except_catches_interrupt :
    ∀ e : Exn,
      (∀ now d (env : WriteEnv), env.ingestOutcome = .error e →
        env.sleepOutcome = .ok () →
        normalLoadIter now d env = .ok (normalIterEvents now d) ∧
        ∀ e2, normalLoadIter now d env ≠ .error e2) ∧
      (∀ c, execute_query c (.error e) =
        .ok [Event.call (.postQuery (randChoice queryList "" c))]) ∧
      (∀ env : SlowEnv, env.queryOutcome = .error e →
        env.sleepOutcome = .ok () →
        slowQueryIter env = .ok slowIterEvents ∧
        ∀ e2, slowQueryIter env ≠ .error e2) := by
  intro e
  refine ⟨?_, fun c => execute_query_eq c _, ?_⟩
  · intro now d env _ hs
    refine ⟨normalLoadIter_ok now d env hs, ?_⟩
    intro e2 h
    rw [normalLoadIter_ok now d env hs] at h
    exact Except.noConfusion h
  · intro env _ hs
    refine ⟨slowQueryIter_ok env hs, ?_⟩
    intro e2 h
    rw [slowQueryIter_ok env hs] at h
    exact Except.noConfusion h

/-- Witness for C10 on closed data: an interrupt delivered during the
ingest post is swallowed and the iteration completes. -/
theorem bare_except_catches_interrupt_witness :
    wEnvInterrupt.ingestOutcome = .error .keyboardInterrupt ∧
    wEnvInterrupt.sleepOutcome = .ok () ∧
    normalLoadIter "t" nd0 wEnvInterrupt = .ok (normalIterEvents "t" nd0) :=
  ⟨rfl, rfl,
    ((bare_except_catches_interrupt .keyboardInterrupt).1 "t" nd0
      wEnvInterrupt rfl rfl).1⟩

/-- C6.  Every batch a load phase submits is within the documented bounds:
a normal-load batch has between 10 and 50 records and a high-load batch
between 500 and 1000, both inclusive; and the batch posted by the
iteration is exactly the batch built. -/
theorem batch_size_bounds :
    ∀ (now : String) (dn : NormalDraws) (dh : HighDraws),
      (10 ≤ (normalBatch now dn).length ∧ (normalBatch now dn).length ≤ 50) ∧
      (500 ≤ (highBatch now dh).length ∧ (highBatch now dh).length ≤ 1000) ∧
      Event.call (.postIngest (normalBatch now dn)) ∈ normalIterEvents now dn ∧
      Event.call (.postBulk (highBatch now dh)) ∈ highIterEvents now dh := by
  intro now dn dh
  have h1 : (normalBatch now dn).length = normalBatchSize dn := by
    simp [normalBatch]
  have h2 : (highBatch now dh).length = highBatchSize dh := by
    simp [highBatch]
  refine ⟨⟨?_, ?_⟩, ⟨?_, ?_⟩, ?_, ?_⟩
  · rw [h1]; unfold normalBatchSize randint; omega
  · rw [h1]; unfold normalBatchSize randint; omega
  · rw [h2]; unfold highBatchSize randint; omega
  · rw [h2]; unfold highBatchSize randint; omega
  · unfold normalIterEvents; exact List.mem_cons_self _ _
  · unfold highIterEvents; exact List.mem_cons_self _ _

/-- C7.  Over the hundred equiprobable draw buckets, the weighted level
sampler of normal load hits debug, info, warning and error in exactly
10, 70, 15 and 5 buckets; every record in a normal-load batch takes its
level from that sampler; and one iteration submits at most one query,
exactly one precisely when the 30%-probability draw fires. -/
theorem normal_load_distribution_and_query :
    ((List.range 100).countP (fun n => decide (chooseLevelNormal n = Level.debug)) = 10) ∧
    ((List.range 100).countP (fun n => decide (chooseLevelNormal n = Level.info)) = 70) ∧
    ((List.range 100).countP (fun n => decide (chooseLevelNormal n = Level.warning)) = 15) ∧
    ((List.range 100).countP (fun n => decide (chooseLevelNormal n = Level.error)) = 5) ∧
    (∀ now d rec, rec ∈ normalBatch now d →
      ∃ j, rec.level = chooseLevelNormal ((d.recDraws j).levelDraw)) ∧
    (∀ now d, (normalIterEvents now d).countP isQueryCall ≤ 1 ∧
      ((normalIterEvents now d).countP isQueryCall = 1 ↔ d.queryDraw % 100 < 30)) := by
  refine ⟨by decide, by decide, by decide, by decide, ?_, ?_⟩
  · intro now d rec h
    unfold normalBatch at h
    obtain ⟨j, _, rfl⟩ := List.mem_map.mp h
    exact ⟨j, rfl⟩
  · intro now d
    unfold normalIterEvents
    by_cases h : d.queryDraw % 100 < 30
    · rw [if_pos h]
      simp [List.countP_cons, isQueryCall_postIngest, isQueryCall_postQuery,
        isQueryCall_sleepMs, h]
    · rw [if_neg h]
      simp [List.countP_cons, isQueryCall_postIngest, isQueryCall_postQuery,
        isQueryCall_sleepMs, h]

/-- Witness for C7 on closed data: the first record of the all-zero batch
is in the batch and takes its level from the weighted sampler. -/
theorem normal_load_distribution_and_query_witness :
    mkNormalRecord "t" rd0 ∈ normalBatch "t" nd0 ∧
    ∃ j, (mkNormalRecord "t" rd0).level = chooseLevelNormal ((nd0.recDraws j).levelDraw) :=
  have hmem : mkNormalRecord "t" rd0 ∈ normalBatch "t" nd0 :=
    List.mem_map.mpr ⟨0, by decide, rfl⟩
  ⟨hmem,
    normal_load_distribution_and_query.2.2.2.2.1 "t" nd0 (mkNormalRecord "t" rd0) hmem⟩

/-- C4.  The fetch helpers propagate failures (shown for `check_health`,
which catches nothing), and whichever of the three fetches raises first
inside a dashboard tick, the `except Exception` clause catches it, the
one-line error message replaces the snapshot, the two-second sleep still
runs, and the tick completes without propagating — so a fetch failure
never terminates the dashboard loop. -/
theorem dashboard_fetch_failure_nonfatal :
    (∀ (resp : Except Exn Response) (e : Exn),
      resp = .error e → check_health resp = .error e) ∧
    (∀ (env : FetchEnv) (e : Exn), e ≠ Exn.keyboardInterrupt →
      (check_health env.healthResp = .error e ∨
        (okE (check_health env.healthResp) = true ∧
          get_metrics env.metricsResp = .error e) ∨
        (okE (check_health env.healthResp) = true ∧
          okE (get_metrics env.metricsResp) = true ∧
          get_alerts env.alertsResp = .error e)) →
      dashboardTick env (.ok ()) = .ok (.errorLine e, [Event.sleepMs 2000])) := by
  constructor
  · intro resp e h; rw [h]; rfl
  · intro env e hne hdisj
    have hbody : dashboardTickBody env = .error e := by
      rcases hdisj with h1 | ⟨h1, h2⟩ | ⟨h1, h2, h3⟩
      · simp only [dashboardTickBody, h1]
      · cases hh : check_health env.healthResp with
        | error e1 => rw [hh] at h1; simp [okE] at h1
        | ok v => simp only [dashboardTickBody, hh, h2]
      · cases hh : check_health env.healthResp with
        | error e1 => rw [hh] at h1; simp [okE] at h1
        | ok v =>
          cases hm : get_metrics env.metricsResp with
          | error e1 => rw [hm] at h2; simp [okE] at h2
          | ok m => simp only [dashboardTickBody, hh, hm, h3]
    have hcaught : caughtTickOutput env = .ok (.errorLine e) := by
      simp [caughtTickOutput, hbody, isException_of_ne_interrupt e hne]
    simp [dashboardTick, hcaught]

/-- Witness for C4 on closed data: a health fetch raising a network error
yields the error line and the sleep, not a propagated exception. -/
theorem dashboard_fetch_failure_nonfatal_witness :
    Exn.requestError ≠ Exn.keyboardInterrupt ∧
    dashboardTick fEnvFail (.ok ()) =
      .ok (.errorLine .requestError, [Event.sleepMs 2000]) :=
  ⟨by decide,
    dashboard_fetch_failure_nonfatal.2 fEnvFail .requestError (by decide) (Or.inl rfl)⟩

/-- C5.  `main` issues the liveness GET first, and it prints the
diagnostic and returns with no further call (hence no phase) exactly when
that GET raises a connection failure (a caught `RequestException`) or
returns a status other than 200; a 200 response instead proceeds to
`run_demo`. -/
theorem startup_precheck_gates_run :
    ∀ (res : Except Exn Response) (demoCalls : List ApiCall),
      (main res demoCalls).1.head? = some ApiCall.getLive ∧
      (((main res demoCalls).2 = MainOutcome.exitDiagnostic ∧
        (main res demoCalls).1 = [ApiCall.getLive]) ↔
        ((∃ e, res = .error e ∧ e.isRequestException = true) ∨
         (∃ r, res = .ok r ∧ r.status_code ≠ 200))) ∧
      (∀ r, res = .ok r → r.status_code = 200 →
        (main res demoCalls).2 = MainOutcome.proceedToDemo) := by
  intro res demoCalls
  cases res with
  | ok r =>
    by_cases h200 : r.status_code = 200
    · refine ⟨by simp [main, h200], by simp [main, h200], ?_⟩
      intro r2 hr hs
      simp [main, h200]
    · refine ⟨by simp [main, h200], by simp [main, h200], ?_⟩
      intro r2 hr hs
      injection hr with h
      rw [h] at h200
      exact absurd hs h200
  | error e =>
    by_cases hre : e.isRequestException = true
    · refine ⟨by simp [main, hre], by simp [main, hre], ?_⟩
      intro r hr hs
      exact Except.noConfusion hr
    · refine ⟨by simp [main, hre], by simp [main, hre], ?_⟩
      intro r hr hs
      exact Except.noConfusion hr

/-- Witness for C5 on closed data: a 200 liveness response proceeds to the
demo. -/
theorem startup_precheck_gates_run_witness :
    resp200.status_code = 200 ∧
    (main (.ok resp200) []).2 = MainOutcome.proceedToDemo :=
  ⟨rfl, (startup_precheck_gates_run (.ok resp200) []).2.2 resp200 rfl rfl⟩

/-- C9.  A well-formed JSON object that lacks the `"metrics"` (resp.
`"alerts"`) field makes `get_metrics` (resp. `get_alerts`) return the
empty list rather than raise, so such a response renders as an empty
snapshot instead of being treated as a fetch failure. -/
theorem missing_field_yields_empty_list :
    ∀ (status : Nat) (fields : List (String × JsonVal)),
      fields.lookup "metrics" = none →
      fields.lookup "alerts" = none →
      get_metrics (.ok ⟨status, .ok (.obj fields)⟩) = .ok (.arr []) ∧
      get_alerts (.ok ⟨status, .ok (.obj fields)⟩) = .ok (.arr []) := by
  intro status fields hm ha
  constructor
  · simp [get_metrics, jsonGet, hm]
  · simp [get_alerts, jsonGet, ha]

/-- Witness for C9 on closed data: the empty object yields the empty list
from both accessors. -/
theorem missing_field_yields_empty_list_witness :
    (([] : List (String × JsonVal)).lookup "metrics" = none) ∧
    get_metrics (.ok ⟨200, .ok (.obj [])⟩) = .ok (.arr []) ∧
    get_alerts (.ok ⟨200, .ok (.obj [])⟩) = .ok (.arr []) :=
  ⟨rfl, (missing_field_yields_empty_list 200 [] rfl rfl).1,
    (missing_field_yields_empty_list 200 [] rfl rfl).2⟩

end ClickLiteDemo
